import Mathlib

/-!
Shallow embedding of `src/app.py` (the smart_capture snipping tool).

The program is a PySide6 (Qt 6) desktop tool: a `SnippingTool` backend keeps
drag state (`start_pos`, `end_pos`, `is_snipping`, `overlay_window`), an
overlay widget forwards mouse events, `capture_region` grabs pixels and saves
`screenshot.png`, `process_ocr` normalizes a path-or-URI and reads the file,
and `perform_ocr_with_gemini` wraps the remote model call in a try/except.

External libraries are embedded at the granularity the program uses them:
Qt's integer `QRect` (two-point constructor and `normalized()` as in Qt 6),
Python's `str.replace("file:///", "")` and `urllib.parse.unquote` (byte-level
for ASCII escapes, which covers every escape the program's inputs use), and
the fallible remote/file-system steps as explicit success-or-raise oracles.
-/

namespace SmartCapture

/-! ### Python string helpers used by `process_ocr` -/

/-- Boolean test that `pat` is an initial segment of the first list
(the list analogue of Python's `str.startswith`). -/
def listStartsWith : List Char → List Char → Bool
  | _, [] => true
  | [], _ :: _ => false
  | c :: cs, p :: ps => c == p && listStartsWith cs ps

/-- Embedding of `image_path.replace("file:///", "")` (src/app.py line 142):
Python's `str.replace` scans left to right, removes each non-overlapping
occurrence of the fixed eight-character pattern, and continues scanning the
original string after the removed occurrence. -/
def removeFileScheme : List Char → List Char
  | 'f' :: 'i' :: 'l' :: 'e' :: ':' :: '/' :: '/' :: '/' :: rest => removeFileScheme rest
  | c :: rest => c :: removeFileScheme rest
  | [] => []

/-- Value of a hexadecimal digit character, `none` for non-hex characters,
as accepted by `urllib.parse.unquote`. -/
def hexDigitVal (c : Char) : Option Nat :=
  if '0' ≤ c ∧ c ≤ '9' then some (c.toNat - 48)
  else if 'a' ≤ c ∧ c ≤ 'f' then some (c.toNat - 87)
  else if 'A' ≤ c ∧ c ≤ 'F' then some (c.toNat - 55)
  else none

/-- Embedding of `urllib.parse.unquote` (src/app.py line 145) at the byte
level: each valid `%XX` escape becomes the character with code `XX`; an
invalid escape keeps the `%` literally and scanning continues after it.
This agrees with Python exactly on ASCII escapes (code below 128); the
program's inputs only use ASCII escapes such as `%3A` and `%20`. -/
def unquoteChars : List Char → List Char
  | [] => []
  | '%' :: a :: b :: rest =>
    match hexDigitVal a, hexDigitVal b with
    | some ha, some hb => Char.ofNat (16 * ha + hb) :: unquoteChars rest
    | _, _ => '%' :: unquoteChars (a :: b :: rest)
  | c :: rest => c :: unquoteChars rest

/-- The decoded path computed by `process_ocr` before opening the file
(src/app.py lines 142-145): strip every `file:///` occurrence, then
percent-decode. -/
def process_ocr_decoded (image_path : String) : String :=
  String.mk (unquoteChars (removeFileScheme image_path.data))

/-! ### Fallible external steps -/

/-- Result of one Python statement that can raise: either a value or an
exception carrying its message text. -/
inductive StepResult (α : Type) where
  | ok (a : α)
  | raise (msg : String)
deriving DecidableEq, Repr

/-! ### `perform_ocr_with_gemini` (src/app.py lines 18-52) -/

/-- One element of the `contents` list sent to `model.generate_content`:
either a text part or the PIL image built from the captured bytes. -/
inductive ContentPart where
  | text (s : String)
  | image
deriving DecidableEq, Repr

/-- The `contents` list built at src/app.py lines 39-42: the fixed text part
followed by the image. -/
def gemini_contents : List ContentPart :=
  [ContentPart.text "What text is in this image?", ContentPart.image]

/-- The text parts of a `contents` list (the instruction strings actually
sent to the model). -/
def textParts (cs : List ContentPart) : List String :=
  cs.filterMap fun c => match c with
    | ContentPart.text s => some s
    | ContentPart.image => none

/-- Oracle for the five fallible steps inside the `try` block of
`perform_ocr_with_gemini`: `genai.configure`, building the
`GenerativeModel`, `Image.open` on the byte payload, `generate_content`
(the response object is modelled by a `String` token), and the `.text`
accessor on the response. -/
structure GeminiEnv where
  configure : StepResult Unit
  getModel : StepResult Unit
  openImage : StepResult Unit
  generate : List ContentPart → StepResult String
  responseText : String → StepResult String

/-- The body of the `try` block of `perform_ocr_with_gemini`
(src/app.py lines 29-49): the five fallible statements run in program
order, a raise at any statement aborts the rest of the block, and the
instruction list handed to `generate_content` is `gemini_contents`. -/
def gemini_try_body (env : GeminiEnv) : Except String String :=
  match env.configure with
  | StepResult.raise e => Except.error e
  | StepResult.ok _ =>
    match env.getModel with
    | StepResult.raise e => Except.error e
    | StepResult.ok _ =>
      match env.openImage with
      | StepResult.raise e => Except.error e
      | StepResult.ok _ =>
        match env.generate gemini_contents with
        | StepResult.raise e => Except.error e
        | StepResult.ok r =>
          match env.responseText r with
          | StepResult.raise e => Except.error e
          | StepResult.ok t => Except.ok t

/-- Embedding of `perform_ocr_with_gemini`: the `except Exception` clause
(src/app.py lines 51-52) turns any raised exception into the string
`"Error during OCR: <details>"`; otherwise the extracted text is returned
unchanged. -/
def perform_ocr_with_gemini (env : GeminiEnv) : String :=
  match gemini_try_body env with
  | Except.ok t => t
  | Except.error e => "Error during OCR: " ++ e

/-- The message of the first step of `perform_ocr_with_gemini` that raises,
if any, reading the steps in program order. Stated independently of
`gemini_try_body` so that the two can be compared. -/
def firstRaise (env : GeminiEnv) : Option String :=
  match env.configure with
  | StepResult.raise e => some e
  | StepResult.ok _ =>
    match env.getModel with
    | StepResult.raise e => some e
    | StepResult.ok _ =>
      match env.openImage with
      | StepResult.raise e => some e
      | StepResult.ok _ =>
        match env.generate gemini_contents with
        | StepResult.raise e => some e
        | StepResult.ok r =>
          match env.responseText r with
          | StepResult.raise e => some e
          | StepResult.ok _ => none

/-! ### `process_ocr` (src/app.py lines 138-152) -/

/-- Oracle for the externals of `process_ocr`: `readFile` models
`open(decoded_path, "rb")` followed by `.read()` (raising on a missing or
unreadable path), and `geminiOf` gives the remote-call oracle for a given
byte payload. -/
structure OcrEnv where
  readFile : String → StepResult (List Nat)
  geminiOf : List Nat → GeminiEnv

/-- The strings emitted on `ocrResultReady` once the decoded path is fixed:
a raise from the file read is caught by the `except` clause
(src/app.py lines 151-152) and reported as `"Error processing OCR: <e>"`;
otherwise the (never-raising) remote call's result is emitted. -/
def ocr_emit_for (env : OcrEnv) (decoded : String) : List String :=
  match env.readFile decoded with
  | StepResult.raise e => ["Error processing OCR: " ++ e]
  | StepResult.ok d => [perform_ocr_with_gemini (env.geminiOf d)]

/-- Embedding of `process_ocr`: normalize the argument, read the file at the
decoded path, and emit exactly one result string. -/
def process_ocr (env : OcrEnv) (image_path : String) : List String :=
  ocr_emit_for env (process_ocr_decoded image_path)

/-! ### Qt geometry: integer `QRect` as used at src/app.py lines 95 and 210 -/

/-- A screen coordinate (`QPoint`). -/
structure Point where
  x : Int
  y : Int
deriving DecidableEq, Repr

/-- Qt's integer rectangle, stored as its two corner coordinates exactly as
in Qt: `(x1, y1)` is the top-left and `(x2, y2)` the bottom-right corner,
both inclusive. -/
structure QRect where
  x1 : Int
  y1 : Int
  x2 : Int
  y2 : Int
deriving DecidableEq, Repr

/-- The `QRect(QPoint, QPoint)` constructor: the first point becomes the
top-left corner, the second the (inclusive) bottom-right corner. -/
def QRect.fromPoints (topLeft bottomRight : Point) : QRect :=
  ⟨topLeft.x, topLeft.y, bottomRight.x, bottomRight.y⟩

/-- Qt 6's `QRect::normalized()`: swap the x corners when `x2 < x1` and the
y corners when `y2 < y1`. -/
def QRect.normalized (r : QRect) : QRect :=
  { x1 := if r.x2 < r.x1 then r.x2 else r.x1
    x2 := if r.x2 < r.x1 then r.x1 else r.x2
    y1 := if r.y2 < r.y1 then r.y2 else r.y1
    y2 := if r.y2 < r.y1 then r.y1 else r.y2 }

/-- Qt's `QRect::x()`. -/
def QRect.x (r : QRect) : Int := r.x1

/-- Qt's `QRect::y()`. -/
def QRect.y (r : QRect) : Int := r.y1

/-- Qt's `QRect::width()`: the corners are inclusive, so the width is
`x2 - x1 + 1`. -/
def QRect.width (r : QRect) : Int := r.x2 - r.x1 + 1

/-- Qt's `QRect::height()`: the corners are inclusive, so the height is
`y2 - y1 + 1`. -/
def QRect.height (r : QRect) : Int := r.y2 - r.y1 + 1

/-! ### `SnippingTool` drag state and gesture handlers
(src/app.py lines 62-113) -/

/-- The mutable fields of `SnippingTool` that the gesture handlers touch:
`start_pos` and `end_pos` (``None`` or a point), the `is_snipping` flag,
whether an overlay window currently exists, and whether the crosshair
override cursor is active (`setOverrideCursor` without a matching
`restoreOverrideCursor`). -/
structure SnipState where
  start_pos : Option Point
  end_pos : Option Point
  is_snipping : Bool
  overlay_window : Bool
  cursor_overridden : Bool
deriving DecidableEq, Repr

/-- The state after `SnippingTool.__init__` (src/app.py lines 62-68). -/
def initState : SnipState :=
  { start_pos := none, end_pos := none, is_snipping := false
    overlay_window := false, cursor_overridden := false }

/-- Observable actions of the gesture handlers: the two session signals and
the call into `capture_region` with the rectangle passed to it. -/
inductive Effect where
  | captureStarted
  | captureEnded
  | captureRegionCall (r : QRect)
deriving DecidableEq, Repr

/-- The rectangles of the `capture_region` calls recorded in an effect
list, in order. -/
def captureRegionCalls (effs : List Effect) : List QRect :=
  effs.filterMap fun e => match e with
    | Effect.captureRegionCall r => some r
    | _ => none

/-- Embedding of `start_capture` (src/app.py lines 73-82): set
`is_snipping`, emit `captureStarted`, clear both positions, create and show
the overlay, and set the crosshair override cursor. -/
def start_capture (s : SnipState) : SnipState × List Effect :=
  ({ s with is_snipping := true, start_pos := none, end_pos := none
            overlay_window := true, cursor_overridden := true },
   [Effect.captureStarted])

/-- Qt's `QPoint::isNull()`: true exactly when both coordinates are 0. -/
def pointIsNull (p : Point) : Bool :=
  p.x == 0 && p.y == 0

/-- Python truthiness of a maybe-`QPoint` field under PySide6: ``None`` is
falsy, and shiboken maps `QPoint::isNull()` to `__bool__`, so a stored
`QPoint` is truthy exactly when it is not the origin `QPoint(0, 0)`. The
guards at src/app.py lines 94, 105 and 111 test this truthiness, not mere
presence. -/
def truthy : Option Point → Bool
  | none => false
  | some p => !(pointIsNull p)

/-- Embedding of `end_capture` (src/app.py lines 84-96): clear
`is_snipping`, emit `captureEnded`, restore the cursor, close and drop the
overlay, and — when `self.start_pos and self.end_pos` is truthy, i.e. both
positions are set and neither is the null point — call `capture_region`
with the normalized rectangle spanned by them. -/
def end_capture (s : SnipState) : SnipState × List Effect :=
  ({ s with is_snipping := false, cursor_overridden := false
            overlay_window := false },
   Effect.captureEnded ::
     (if truthy s.start_pos && truthy s.end_pos then
        match s.start_pos, s.end_pos with
        | some a, some b =>
          [Effect.captureRegionCall ((QRect.fromPoints a b).normalized)]
        | _, _ => []
      else []))

/-- Embedding of `mouse_press_event` (src/app.py lines 98-101): while
snipping, record the press position as `start_pos`. -/
def mouse_press_event (s : SnipState) (p : Point) : SnipState :=
  if s.is_snipping then { s with start_pos := some p } else s

/-- Embedding of `mouse_move_event` (src/app.py lines 103-107): while
snipping with a truthy (set and non-null) start position, record the
position as `end_pos` (the overlay redraw request is not modelled). -/
def mouse_move_event (s : SnipState) (p : Point) : SnipState :=
  if s.is_snipping && truthy s.start_pos then { s with end_pos := some p } else s

/-- Embedding of `mouse_release_event` (src/app.py lines 109-113): while
snipping with a truthy (set and non-null) start position, record the
position as `end_pos` and run `end_capture`. -/
def mouse_release_event (s : SnipState) (p : Point) : SnipState × List Effect :=
  if s.is_snipping && truthy s.start_pos then
    end_capture { s with end_pos := some p }
  else (s, [])

/-- The end-to-end drag gesture of the specification: from the initial
state, `start_capture`, pointer-down at (10,10), pointer-move to (110,60),
pointer-up at (110,60); result is the final state and every effect in
order. -/
def session_run : SnipState × List Effect :=
  let (s1, e1) := start_capture initState
  let s2 := mouse_press_event s1 ⟨10, 10⟩
  let s3 := mouse_move_event s2 ⟨110, 60⟩
  let (s4, e4) := mouse_release_event s3 ⟨110, 60⟩
  (s4, e1 ++ e4)

/-! ### `capture_region` (src/app.py lines 115-136) -/

/-- Oracle for the externals of `capture_region`: whether
`QGuiApplication.primaryScreen()` returns a screen, whether the grabbed
pixmap is null, the working directory resolving `os.path.abspath`, and
whether `QDir.toNativeSeparators` runs with Windows separators. -/
structure CaptureEnv where
  hasScreen : Bool
  grabIsNull : Bool
  cwd : String
  windows : Bool

/-- Observable actions of `capture_region`: saving the pixmap of a grabbed
region to a file in a given format, and emitting `screenshotReady` with a
path. -/
inductive CaptureEffect where
  | fileWrite (path : String) (format : String) (region : QRect)
  | screenshotReady (path : String)
deriving DecidableEq, Repr

/-- Model of `os.path.abspath` on a relative filename: join it to the
current working directory. -/
def os_path_abspath (cwd f : String) : String :=
  String.mk (cwd.data ++ '/' :: f.data)

/-- Model of `QDir.toNativeSeparators`: on Windows every `/` becomes `\`,
elsewhere the path is unchanged. -/
def toNativeSeparators (windows : Bool) (s : String) : String :=
  if windows then String.mk (s.data.map fun c => if c = '/' then '\\' else c)
  else s

/-- Embedding of `capture_region`: return silently (no effects) when there
is no primary screen or the grab is null; otherwise save the grab of the
requested region as PNG under the fixed name `screenshot.png` and emit the
native form of its absolute path. -/
def capture_region (env : CaptureEnv) (r : QRect) : List CaptureEffect :=
  if !env.hasScreen then []
  else if env.grabIsNull then []
  else
    [CaptureEffect.fileWrite "screenshot.png" "PNG" r,
     CaptureEffect.screenshotReady
       (toNativeSeparators env.windows (os_path_abspath env.cwd "screenshot.png"))]

/-! ### Concrete fixtures used to instantiate the theorems -/

/-- A remote-call oracle whose five steps all succeed, extracting the text
`"hello"`. -/
def geminiEnvOk : GeminiEnv :=
  ⟨StepResult.ok (), StepResult.ok (), StepResult.ok (),
   fun _ => StepResult.ok "resp", fun _ => StepResult.ok "hello"⟩

/-- A remote-call oracle whose `generate_content` step raises `"boom"`. -/
def geminiEnvRaise : GeminiEnv :=
  ⟨StepResult.ok (), StepResult.ok (), StepResult.ok (),
   fun _ => StepResult.raise "boom", fun _ => StepResult.ok "t"⟩

/-- A generate-step oracle that succeeds on every contents list. -/
def geminiGenConst : List ContentPart → StepResult String :=
  fun _ => StepResult.ok "resp"

/-- A generate-step oracle that succeeds only on the program's actual
contents list and raises on every other one. -/
def geminiGenPicky : List ContentPart → StepResult String :=
  fun cs => if cs = gemini_contents then StepResult.ok "resp" else StepResult.raise "other"

/-- A file-system oracle on which every read raises, as for a missing
path. -/
def ocrEnvMissing : OcrEnv :=
  ⟨fun _ => StepResult.raise "No such file or directory", fun _ => geminiEnvOk⟩

/-- A mid-gesture state with both drag positions set. -/
def snipBoth : SnipState :=
  ⟨some ⟨1, 2⟩, some ⟨5, 9⟩, true, true, true⟩

/-- A mid-gesture state with a start position but no end position. -/
def snipNoEnd : SnipState :=
  ⟨some ⟨1, 2⟩, none, true, true, true⟩

/-- A mid-gesture state whose start position is present but is the null
point `QPoint(0, 0)` — falsy under PySide6 truthiness. -/
def snipOrigin : SnipState :=
  ⟨some ⟨0, 0⟩, some ⟨5, 9⟩, true, true, true⟩

/-- A capture environment with a primary screen, a non-null grab, a POSIX
working directory, and POSIX separators. -/
def captureEnvOk : CaptureEnv :=
  ⟨true, false, "/home/user", false⟩

/-- A capture environment with no primary screen. -/
def captureEnvNoScreen : CaptureEnv :=
  ⟨false, false, "/home/user", false⟩

/-! ### Helper lemmas -/

theorem listStartsWith_append (l t : List Char) : listStartsWith (l ++ t) l = true := by
  induction l with
  | nil => simp [listStartsWith]
  | cons c cs ih => simp [listStartsWith, ih]

theorem listStartsWith_string_append (s t : String) :
    listStartsWith (s ++ t).data s.data = true :=
  listStartsWith_append s.data t.data

theorem gemini_try_body_error_iff (env : GeminiEnv) (e : String) :
    gemini_try_body env = Except.error e ↔ firstRaise env = some e := by
  cases h1 : env.configure with
  | raise e1 => simp [gemini_try_body, firstRaise, h1]
  | ok u1 =>
    cases h2 : env.getModel with
    | raise e2 => simp [gemini_try_body, firstRaise, h1, h2]
    | ok u2 =>
      cases h3 : env.openImage with
      | raise e3 => simp [gemini_try_body, firstRaise, h1, h2, h3]
      | ok u3 =>
        cases h4 : env.generate gemini_contents with
        | raise e4 => simp [gemini_try_body, firstRaise, h1, h2, h3, h4]
        | ok r =>
          cases h5 : env.responseText r with
          | raise e5 => simp [gemini_try_body, firstRaise, h1, h2, h3, h4, h5]
          | ok t => simp [gemini_try_body, firstRaise, h1, h2, h3, h4, h5]

/-! ### Claim theorems -/

/-- Claim C1, amended: for the drag gesture pointer-down at (10,10),
pointer-move to (110,60), pointer-up at (110,60), exactly one
`capture_region` call is made, and the rectangle passed to it has
x = 10, y = 10, width = 101 and height = 51 (Qt's two-point `QRect`
constructor treats the second point as an inclusive bottom-right corner,
so the width is 110 - 10 + 1 and the height is 60 - 10 + 1). -/
theorem session_capture_call_rect :
    captureRegionCalls session_run.2 = [QRect.mk 10 10 110 60] ∧
    (QRect.mk 10 10 110 60).x = 10 ∧ (QRect.mk 10 10 110 60).y = 10 ∧
    (QRect.mk 10 10 110 60).width = 101 ∧ (QRect.mk 10 10 110 60).height = 51 := by
  decide

/-- Claim C1, counterexample to the claim as stated: the single
`capture_region` call of the (10,10)→(110,60) gesture does not receive a
rectangle of width 100 and height 50. -/
theorem session_capture_rect_claim_false :
    captureRegionCalls session_run.2 = [QRect.mk 10 10 110 60] ∧
    ¬ (QRect.mk 10 10 110 60).width = 100 ∧
    ¬ (QRect.mk 10 10 110 60).height = 50 := by
  decide

/-- Claim C2: for every pair of pointer coordinates, the normalized
selection rectangle has non-negative width and height, its corners are the
per-axis minima and maxima of the two points (the bounding box of the
pair), and the rectangle is unchanged when the two points are swapped. -/
theorem normalized_selection_bounding_box (a b : Point) :
    0 ≤ ((QRect.fromPoints a b).normalized).width ∧
    0 ≤ ((QRect.fromPoints a b).normalized).height ∧
    ((QRect.fromPoints a b).normalized).x1 = min a.x b.x ∧
    ((QRect.fromPoints a b).normalized).y1 = min a.y b.y ∧
    ((QRect.fromPoints a b).normalized).x2 = max a.x b.x ∧
    ((QRect.fromPoints a b).normalized).y2 = max a.y b.y ∧
    (QRect.fromPoints b a).normalized = (QRect.fromPoints a b).normalized := by
  refine ⟨?_, ?_, ?_, ?_, ?_, ?_, ?_⟩ <;>
    simp only [QRect.fromPoints, QRect.normalized, QRect.width, QRect.height,
      QRect.mk.injEq, min_def, max_def] <;>
    split_ifs <;> omega

/-- Claim C2, witness at the up-left drag (3,4) → (1,2). -/
theorem normalized_selection_bounding_box_witness :
    ((QRect.fromPoints ⟨3, 4⟩ ⟨1, 2⟩).normalized).x1 = min 3 1 ∧
    (QRect.fromPoints ⟨1, 2⟩ ⟨3, 4⟩).normalized = (QRect.fromPoints ⟨3, 4⟩ ⟨1, 2⟩).normalized :=
  ⟨(normalized_selection_bounding_box ⟨3, 4⟩ ⟨1, 2⟩).2.2.1,
   (normalized_selection_bounding_box ⟨3, 4⟩ ⟨1, 2⟩).2.2.2.2.2.2⟩

/-- Claim C3, counterexample to the claim as stated: after the complete
(10,10)→(110,60) capture session ends, `start_pos` and `end_pos` still
hold the gesture's positions — `end_capture` does not clear them. -/
theorem drag_state_not_cleared_at_end :
    session_run.1.start_pos = some ⟨10, 10⟩ ∧
    session_run.1.end_pos = some ⟨110, 60⟩ ∧
    ¬ session_run.1.start_pos = none := by
  decide

/-- Claim C3, amended: `start_pos` and `end_pos` are both cleared at the
start of every capture session (`start_capture` resets them to ``None``),
but `end_capture` leaves both unchanged, so at the end of a session they
keep the final gesture's values until the next `start_capture`. -/
theorem drag_state_cleared_at_start_only (s : SnipState) :
    (start_capture s).1.start_pos = none ∧
    (start_capture s).1.end_pos = none ∧
    (end_capture s).1.start_pos = s.start_pos ∧
    (end_capture s).1.end_pos = s.end_pos := by
  cases hs : s.start_pos <;> cases he : s.end_pos <;>
    simp [start_capture, end_capture, hs, he]

/-- Claim C3, witness at a mid-gesture state with both positions set. -/
theorem drag_state_cleared_at_start_only_witness :
    (start_capture snipBoth).1.start_pos = none ∧
    (end_capture snipBoth).1.start_pos = snipBoth.start_pos :=
  ⟨(drag_state_cleared_at_start_only snipBoth).1,
   (drag_state_cleared_at_start_only snipBoth).2.2.1⟩

/-- Claim C4: whenever any of the five fallible steps of
`perform_ocr_with_gemini` raises (configuring the model, building it,
opening the image bytes, sending the request, extracting the response
text), the function returns the string `"Error during OCR: <details>"` —
it is total, so nothing propagates to the caller — and when every step
succeeds it returns the extracted text verbatim. -/
theorem perform_ocr_with_gemini_error_convention (env : GeminiEnv) :
    (∀ e, firstRaise env = some e →
        perform_ocr_with_gemini env = "Error during OCR: " ++ e ∧
        listStartsWith (perform_ocr_with_gemini env).data ("Error during OCR: ".data) = true) ∧
    (∀ t, gemini_try_body env = Except.ok t →
        firstRaise env = none ∧ perform_ocr_with_gemini env = t) := by
  constructor
  · intro e he
    have hb : gemini_try_body env = Except.error e := (gemini_try_body_error_iff env e).mpr he
    have heq : perform_ocr_with_gemini env = "Error during OCR: " ++ e := by
      simp [perform_ocr_with_gemini, hb]
    exact ⟨heq, by rw [heq]; exact listStartsWith_string_append _ _⟩
  · intro t ht
    refine ⟨?_, by simp [perform_ocr_with_gemini, ht]⟩
    cases hf : firstRaise env with
    | none => rfl
    | some e =>
      exfalso
      have hb := (gemini_try_body_error_iff env e).mpr hf
      rw [ht] at hb
      simp at hb

/-- Claim C4, witness: the oracle whose request step raises `"boom"` yields
the error string, and the all-success oracle yields the text `"hello"`
verbatim. -/
theorem perform_ocr_with_gemini_error_convention_witness :
    perform_ocr_with_gemini geminiEnvRaise = "Error during OCR: " ++ "boom" ∧
    perform_ocr_with_gemini geminiEnvOk = "hello" :=
  ⟨((perform_ocr_with_gemini_error_convention geminiEnvRaise).1 "boom" rfl).1,
   ((perform_ocr_with_gemini_error_convention geminiEnvOk).2 "hello" rfl).2⟩

/-- Claim C5: when the file at the decoded path cannot be opened or read —
the read raises — `process_ocr` emits exactly one result string, of the
form `"Error processing OCR: <details>"`; the embedding is a total
function, so no exception escapes to the caller. -/
theorem process_ocr_read_failure_emits_error (env : OcrEnv) (image_path e : String)
    (h : env.readFile (process_ocr_decoded image_path) = StepResult.raise e) :
    process_ocr env image_path = ["Error processing OCR: " ++ e] ∧
    listStartsWith ("Error processing OCR: " ++ e).data ("Error processing OCR: ".data) = true := by
  constructor
  · simp [process_ocr, ocr_emit_for, h]
  · exact listStartsWith_string_append _ _

/-- Claim C5, witness: on the oracle where every read raises, asking for
`missing.png` emits exactly the one error string. -/
theorem process_ocr_read_failure_emits_error_witness :
    process_ocr ocrEnvMissing "missing.png" =
      ["Error processing OCR: " ++ "No such file or directory"] :=
  (process_ocr_read_failure_emits_error ocrEnvMissing "missing.png"
    "No such file or directory" rfl).1

/-- Claim C6: `process_ocr` strips the `file:///` scheme and
percent-decodes, so the URI `file:///C%3A/tmp/shot.png` is normalized to
the path `C:/tmp/shot.png`, and the file `process_ocr` then reads is
exactly the file at that decoded path. -/
theorem process_ocr_uri_normalization :
    process_ocr_decoded "file:///C%3A/tmp/shot.png" = "C:/tmp/shot.png" ∧
    ∀ env : OcrEnv, process_ocr env "file:///C%3A/tmp/shot.png" =
      ocr_emit_for env "C:/tmp/shot.png" := by
  have h : process_ocr_decoded "file:///C%3A/tmp/shot.png" = "C:/tmp/shot.png" := by decide
  refine ⟨h, fun env => ?_⟩
  unfold process_ocr
  rw [h]

/-- Claim C7, counterexample to the claim as stated: the instruction text
in the contents list sent with the image is not the string
`"extract the text in this image"`. -/
theorem gemini_instruction_claim_false :
    textParts gemini_contents = ["What text is in this image?"] ∧
    ¬ textParts gemini_contents = ["extract the text in this image"] := by
  decide

/-- Claim C7, amended: the instruction text sent to the remote
generative-model endpoint together with the image is the fixed string
`"What text is in this image?"`; the request step is consulted only at
this fixed contents list, so any two request oracles agreeing there make
the whole call behave identically. -/
theorem gemini_instruction_fixed :
    textParts gemini_contents = ["What text is in this image?"] ∧
    ∀ (c m o : StepResult Unit) (g f : List ContentPart → StepResult String)
      (rt : String → StepResult String),
      f gemini_contents = g gemini_contents →
      gemini_try_body ⟨c, m, o, f, rt⟩ = gemini_try_body ⟨c, m, o, g, rt⟩ := by
  refine ⟨by decide, fun c m o g f rt h => ?_⟩
  unfold gemini_try_body
  dsimp only
  rw [h]

/-- Claim C7, witness: a request oracle that succeeds only on the
program's fixed contents list agrees with the constant oracle there, so
the two runs coincide. -/
theorem gemini_instruction_fixed_witness :
    textParts gemini_contents = ["What text is in this image?"] ∧
    gemini_try_body ⟨StepResult.ok (), StepResult.ok (), StepResult.ok (),
        geminiGenPicky, fun _ => StepResult.ok "t"⟩ =
      gemini_try_body ⟨StepResult.ok (), StepResult.ok (), StepResult.ok (),
        geminiGenConst, fun _ => StepResult.ok "t"⟩ :=
  ⟨gemini_instruction_fixed.1,
   gemini_instruction_fixed.2 (StepResult.ok ()) (StepResult.ok ()) (StepResult.ok ())
     geminiGenConst geminiGenPicky (fun _ => StepResult.ok "t") (by decide)⟩

/-- Claim C8, counterexample to the claim as stated: in a state where both
`start_pos` and `end_pos` are present but `start_pos` is the origin
`QPoint(0, 0)`, `end_capture` makes no `capture_region` call — PySide6's
truthiness guard at line 94 (`if self.start_pos and self.end_pos:`) treats
a null `QPoint` as falsy, so "present" alone does not imply a capture. -/
theorem end_capture_present_origin_no_capture :
    snipOrigin.start_pos = some ⟨0, 0⟩ ∧
    snipOrigin.end_pos = some ⟨5, 9⟩ ∧
    snipOrigin.start_pos.isSome = true ∧ snipOrigin.end_pos.isSome = true ∧
    captureRegionCalls (end_capture snipOrigin).2 = [] := by
  decide

/-- Claim C8, amended: `end_capture` always exits snipping mode, restores
the default cursor, and drops the overlay surface; it calls
`capture_region` with the normalized rectangle spanned by `start_pos` and
`end_pos` exactly when both positions are truthy — present and not the
null point `QPoint(0, 0)` — and makes no such call (and raises nothing —
the embedding is total) when either position is absent or null. -/
theorem end_capture_contract (s : SnipState) :
    (end_capture s).1.is_snipping = false ∧
    (end_capture s).1.cursor_overridden = false ∧
    (end_capture s).1.overlay_window = false ∧
    (∀ a b, s.start_pos = some a → s.end_pos = some b →
      pointIsNull a = false → pointIsNull b = false →
      (end_capture s).2 = [Effect.captureEnded,
        Effect.captureRegionCall ((QRect.fromPoints a b).normalized)]) ∧
    ((s.start_pos = none ∨ s.end_pos = none) →
      (end_capture s).2 = [Effect.captureEnded]) ∧
    (∀ a b, s.start_pos = some a → s.end_pos = some b →
      (pointIsNull a = true ∨ pointIsNull b = true) →
      (end_capture s).2 = [Effect.captureEnded]) ∧
    (¬ captureRegionCalls (end_capture s).2 = [] ↔
      truthy s.start_pos = true ∧ truthy s.end_pos = true) := by
  refine ⟨rfl, rfl, rfl, ?_, ?_, ?_, ?_⟩
  · intro a b ha hb hna hnb
    simp [end_capture, truthy, ha, hb, hna, hnb]
  · intro h
    cases h with
    | inl h => simp [end_capture, truthy, h]
    | inr h => simp [end_capture, truthy, h]
  · intro a b ha hb h
    cases h with
    | inl h => simp [end_capture, truthy, ha, hb, h]
    | inr h => simp [end_capture, truthy, ha, hb, h]
  · cases hs : s.start_pos with
    | none => simp [end_capture, captureRegionCalls, truthy, hs]
    | some a =>
      cases he : s.end_pos with
      | none => simp [end_capture, captureRegionCalls, truthy, hs, he]
      | some b =>
        cases hna : pointIsNull a <;> cases hnb : pointIsNull b <;>
          simp [end_capture, captureRegionCalls, truthy, hs, he, hna, hnb]

/-- Claim C8, witness: with both positions present and non-null the
capture call is made with the normalized rectangle; with the end position
missing, or with the start position at the falsy origin, only the
session-end signal is produced; mode, cursor, and overlay are reset. -/
theorem end_capture_contract_witness :
    (end_capture snipBoth).2 = [Effect.captureEnded,
      Effect.captureRegionCall ((QRect.fromPoints ⟨1, 2⟩ ⟨5, 9⟩).normalized)] ∧
    (end_capture snipNoEnd).2 = [Effect.captureEnded] ∧
    (end_capture snipOrigin).2 = [Effect.captureEnded] ∧
    (end_capture snipBoth).1.is_snipping = false :=
  ⟨(end_capture_contract snipBoth).2.2.2.1 ⟨1, 2⟩ ⟨5, 9⟩ rfl rfl rfl rfl,
   (end_capture_contract snipNoEnd).2.2.2.2.1 (Or.inr rfl),
   (end_capture_contract snipOrigin).2.2.2.2.2.1 ⟨0, 0⟩ ⟨5, 9⟩ rfl rfl (Or.inl rfl),
   (end_capture_contract snipBoth).1⟩

/-- Claim C9: `capture_region` produces no effect at all — no file write
and no emitted path, so the OCR stage is never reached — when there is no
primary screen or when the grab is null; otherwise it writes the grab of
the requested region as PNG to the single fixed filename
`screenshot.png` and emits the native form of that file's absolute path,
which (for an absolute working directory) is not a `file://` URI. -/
theorem capture_region_contract (env : CaptureEnv) (r : QRect) :
    (env.hasScreen = false → capture_region env r = []) ∧
    (env.grabIsNull = true → capture_region env r = []) ∧
    (env.hasScreen = true → env.grabIsNull = false →
      capture_region env r =
        [CaptureEffect.fileWrite "screenshot.png" "PNG" r,
         CaptureEffect.screenshotReady
           (toNativeSeparators env.windows (os_path_abspath env.cwd "screenshot.png"))]) ∧
    (∀ t, env.cwd.data = '/' :: t →
      ∀ p, CaptureEffect.screenshotReady p ∈ capture_region env r →
        listStartsWith p.data ("file://".data) = false) := by
  refine ⟨?_, ?_, ?_, ?_⟩
  · intro h; simp [capture_region, h]
  · intro h
    cases h1 : env.hasScreen <;> simp [capture_region, h, h1]
  · intro h1 h2; simp [capture_region, h1, h2]
  · intro t ht p hp
    cases h1 : env.hasScreen with
    | false => simp [capture_region, h1] at hp
    | true =>
      cases h2 : env.grabIsNull with
      | true => simp [capture_region, h1, h2] at hp
      | false =>
        simp [capture_region, h1, h2] at hp
        subst hp
        cases hw : env.windows <;> simp [toNativeSeparators, os_path_abspath, hw, ht] <;> rfl

/-- Claim C9, witness: with no screen nothing is emitted; with a screen
and a good grab the fixed PNG is written and the emitted absolute path is
not a URI. -/
theorem capture_region_contract_witness :
    capture_region captureEnvNoScreen ⟨0, 0, 9, 9⟩ = [] ∧
    capture_region captureEnvOk ⟨0, 0, 9, 9⟩ =
      [CaptureEffect.fileWrite "screenshot.png" "PNG" ⟨0, 0, 9, 9⟩,
       CaptureEffect.screenshotReady
         (toNativeSeparators false (os_path_abspath "/home/user" "screenshot.png"))] ∧
    listStartsWith
      (toNativeSeparators false (os_path_abspath "/home/user" "screenshot.png")).data
      ("file://".data) = false :=
  ⟨(capture_region_contract captureEnvNoScreen ⟨0, 0, 9, 9⟩).1 rfl,
   (capture_region_contract captureEnvOk ⟨0, 0, 9, 9⟩).2.2.1 rfl rfl,
   (capture_region_contract captureEnvOk ⟨0, 0, 9, 9⟩).2.2.2 "home/user".data (by decide)
     (toNativeSeparators false (os_path_abspath "/home/user" "screenshot.png")) (by decide)⟩

/-- Claim C10: the normalization of `process_ocr` is applied
unconditionally to every input — the substring `file:///` is removed even
in non-leading position, percent-escapes are decoded even in plain paths
that carry no URI scheme, and every call of `process_ocr` reads the file
at the normalized path of its argument. -/
theorem process_ocr_normalization_unconditional :
    process_ocr_decoded "C:/pics/file:///shot.png" = "C:/pics/shot.png" ∧
    process_ocr_decoded "C:/tmp/my%20shot.png" = "C:/tmp/my shot.png" ∧
    process_ocr_decoded "a%20b/file:///c%3Ad" = "a b/c:d" ∧
    ∀ (env : OcrEnv) (p : String),
      process_ocr env p = ocr_emit_for env (process_ocr_decoded p) :=
  ⟨by decide, by decide, by decide, fun env p => rfl⟩

end SmartCapture
